import Mathlib

/-!
# pushlogs: a shallow embedding of `main.go`

The Go package `pushlogs` keeps one process-wide `*LogCollector`
(`defaultCollector`), fills it in `Init`, and ships every log entry with a
fire-and-forget `go lc.sendLog(entry)`.

Modelling conventions.

* Go `string` values are byte strings (`GoString`), valid UTF-8 or not; a
  string constant of the source is written `utf8 "..."`, its UTF-8 bytes.
  Lean `String` (Unicode text) is used for what is text by construction: the
  layout of a formatted time, and the names and values of JSON members.
* The pointer `defaultCollector` is an `Option LogCollector`; `nil` is `none`.
  `Init` never mutates a collector in place, it allocates a fresh one, so a
  goroutine that captured the old pointer keeps the old value.
* A `go lc.sendLog(entry)` statement is recorded as a `Goroutine` appended to
  the list `World.goroutines`; running it is `Goroutine.run`.
* The library calls made by the package (`time.Now`, `json.Marshal`,
  `http.NewRequest`, `(*http.Client).Do`, `fmt.Printf`) are modelled next to
  the code that uses them; what the network answers is a parameter (`Env`).
-/

namespace pushlogs

/-! ## Go strings and UTF-8 -/

/-- A byte. -/
abbrev Byte := Fin 256

/-- Go `string`: a sequence of bytes, not necessarily valid UTF-8. -/
abbrev GoString := List Byte

/-- The byte with the given value (modulo 256). -/
def byte (n : Nat) : Byte := ⟨n % 256, Nat.mod_lt n (by decide)⟩

/-- Go `utf8.EncodeRune` on a Unicode scalar value: one to four bytes. The
shifts and masks of the Go code are written as division and remainder. -/
def encodeRune (c : Char) : GoString :=
  let n := c.toNat
  if n < 0x80 then [byte n]
  else if n < 0x800 then [byte (0xC0 + n / 64), byte (0x80 + n % 64)]
  else if n < 0x10000 then
    [byte (0xE0 + n / 4096), byte (0x80 + n / 64 % 64), byte (0x80 + n % 64)]
  else
    [byte (0xF0 + n / 262144), byte (0x80 + n / 4096 % 64), byte (0x80 + n / 64 % 64),
      byte (0x80 + n % 64)]

/-- The Go string that a source literal with this text denotes: its UTF-8
bytes. -/
def utf8 (s : String) : GoString := s.data.flatMap encodeRune

/-- Lowest second byte that Go's `acceptRanges` allows after first byte
`s0`. -/
def acceptLo (s0 : Byte) : Nat :=
  if s0.val = 0xE0 then 0xA0 else if s0.val = 0xF0 then 0x90 else 0x80

/-- Highest second byte that Go's `acceptRanges` allows after first byte
`s0`. -/
def acceptHi (s0 : Byte) : Nat :=
  if s0.val = 0xED then 0x9F else if s0.val = 0xF4 then 0x8F else 0xBF

/-- Go `utf8.RuneError`, U+FFFD. -/
def RuneError : Char := Char.ofNat 0xFFFD

/-- Go `utf8.DecodeRuneInString` on a non-empty string with first byte `s0`
and rest `t`: the rune and the number of bytes it takes, `(RuneError, 1)` for
an invalid or short encoding. First bytes 0x80-0xC1 and 0xF5-0xFF are invalid;
0xC2-0xDF start two bytes, 0xE0-0xEF three, 0xF0-0xF4 four. -/
def DecodeRune (s0 : Byte) (t : GoString) : Char × Nat :=
  if s0.val < 0x80 then (Char.ofNat s0.val, 1)
  else if s0.val < 0xC2 ∨ 0xF4 < s0.val then (RuneError, 1)
  else
    match t with
    | [] => (RuneError, 1)
    | s1 :: t1 =>
      if s1.val < acceptLo s0 ∨ acceptHi s0 < s1.val then (RuneError, 1)
      else if s0.val < 0xE0 then (Char.ofNat (s0.val % 32 * 64 + s1.val % 64), 2)
      else
        match t1 with
        | [] => (RuneError, 1)
        | s2 :: t2 =>
          if s2.val < 0x80 ∨ 0xBF < s2.val then (RuneError, 1)
          else if s0.val < 0xF0 then
            (Char.ofNat (s0.val % 16 * 4096 + s1.val % 64 * 64 + s2.val % 64), 3)
          else
            match t2 with
            | [] => (RuneError, 1)
            | s3 :: _ =>
              if s3.val < 0x80 ∨ 0xBF < s3.val then (RuneError, 1)
              else
                (Char.ofNat (s0.val % 8 * 262144 + s1.val % 64 * 4096 + s2.val % 64 * 64
                  + s3.val % 64), 4)

/-- The runes of a Go string as the string loop of `encoding/json` reads
them: one `DecodeRune` at each position, then on by its size, so that every
byte that starts no valid encoding yields one U+FFFD. `skip` counts the bytes
still belonging to the rune read last. -/
def decodeFrom : Nat → GoString → List Char
  | _, [] => []
  | skip + 1, _ :: t => decodeFrom skip t
  | 0, s0 :: t => (DecodeRune s0 t).1 :: decodeFrom ((DecodeRune s0 t).2 - 1) t

/-- The text that the JSON string written by `json.Marshal` for a Go string
denotes: the string read as UTF-8, each invalid byte replaced by U+FFFD.
(Escapes such as `\n` or `<` in the written form denote the character
itself and do not change this value.) -/
def jsonString (s : GoString) : String := String.mk (decodeFrom 0 s)

/-! ## Data model (`main.go` lines 11-32) -/

/-- Go `time.Duration`: a signed count of nanoseconds. -/
abbrev Duration := Int

/-- Go `time.Second`. -/
def Second : Duration := 1000000000

/-- Go `LogEntry` (lines 11-18); the JSON keys of the struct tags are used by
`jsonMarshal`. -/
structure LogEntry where
  TimeStamp : GoString
  TraceID : GoString
  ServiceID : GoString
  ApplicationID : GoString
  LogLevel : GoString
  Log : GoString
  deriving DecidableEq, Repr

/-- Go `Config` (lines 20-25). -/
structure Config where
  APIBaseURL : GoString
  ServiceID : GoString
  ApplicationID : GoString
  Timeout : Duration
  deriving DecidableEq, Repr

/-- The part of `http.Client` the package sets: its `Timeout`. -/
structure HTTPClient where
  Timeout : Duration
  deriving DecidableEq, Repr

/-- Go `LogCollector` (lines 27-30). -/
structure LogCollector where
  config : Config
  httpClient : HTTPClient
  deriving DecidableEq, Repr

/-- One started `go lc.sendLog(entry)`: the receiver and the entry it was
given (Go copies the struct argument when the goroutine is created). -/
structure Goroutine where
  lc : LogCollector
  entry : LogEntry
  deriving DecidableEq, Repr

/-- The process state the package reads and writes: the package variable
`defaultCollector` (line 32) and the goroutines started so far, oldest
first. -/
structure World where
  defaultCollector : Option LogCollector
  goroutines : List Goroutine
  deriving DecidableEq, Repr

/-- Go `error` values, by how the library builds them: a plain message
(`errors.New`, `fmt.Errorf`) or a `*url.Error` wrapping another error. -/
inductive GoError where
  | errorString (s : GoString)
  | urlError (op url : GoString) (err : GoError)
  deriving DecidableEq, Repr

/-! ## `Init` (lines 34-53) -/

/-- The error `Init` builds with `fmt.Errorf` (line 36). -/
def initError : GoError :=
  .errorString (utf8 "apiBaseURL, serviceID, and applicationID are required")

/-- Go `Init`: returns the new process state and the `error` result
(`none` is `nil`). -/
def Init (w : World) (apiBaseURL serviceID applicationID : GoString) :
    World × Option GoError :=
  if apiBaseURL = utf8 "" ∨ serviceID = utf8 "" ∨ applicationID = utf8 "" then
    (w, some initError)
  else
    let config : Config :=
      { APIBaseURL := apiBaseURL
        ServiceID := serviceID
        ApplicationID := applicationID
        Timeout := 15 * Second }
    ({ w with
        defaultCollector := some
          { config := config
            httpClient := { Timeout := config.Timeout } } },
      none)

/-! ## The clock: `time.Now().UTC().Format(time.RFC3339)` -/

/-- A reading of `time.Now()`: the instant as seconds and nanoseconds since
1970-01-01T00:00:00Z, and the offset of the zone it is shown in (seconds east
of UTC). -/
structure Time where
  sec : Int
  nsec : Nat
  offset : Int
  deriving DecidableEq, Repr

/-- Go `Time.UTC`: the same instant, shown in UTC. -/
def Time.UTC (t : Time) : Time := { t with offset := 0 }

/-- Go `appendInt` of package `time`: decimal, a minus sign for a negative
number, zero-padded to `width` digits. -/
def appendInt (x : Int) (width : Nat) : String :=
  let ds := Nat.toDigits 10 x.natAbs
  (if x < 0 then "-" else "") ++ String.mk (List.replicate (width - ds.length) (Char.ofNat 48) ++ ds)

/-- Year, month and day of the proleptic Gregorian calendar for a day count
since 1970-01-01. -/
def civilFromDays (days : Int) : Int × Int × Int :=
  let z := days + 719468
  let era := z.fdiv 146097
  let doe := z - era * 146097
  let yoe := (doe - doe.fdiv 1460 + doe.fdiv 36524 - doe.fdiv 146096).fdiv 365
  let doy := doe - (365 * yoe + yoe.fdiv 4 - yoe.fdiv 100)
  let mp := (5 * doy + 2).fdiv 153
  let d := doy - (153 * mp + 2).fdiv 5 + 1
  let m := if mp < 10 then mp + 3 else mp - 9
  let y := yoe + era * 400 + (if m ≤ 2 then 1 else 0)
  (y, m, d)

/-- The zone suffix of the layout element `Z07:00`: `Z` for offset zero,
otherwise sign, hours, colon, minutes. -/
def zoneSuffix (offset : Int) : String :=
  if offset = 0 then "Z"
  else
    let zone := offset.tdiv 60
    let a := zone.natAbs
    (if zone < 0 then "-" else "+") ++ appendInt (a / 60) 2 ++ ":" ++ appendInt (a % 60) 2

/-- The text of Go `t.Format(time.RFC3339)`, layout
`2006-01-02T15:04:05Z07:00`; it consists of ASCII digits, signs and letters. -/
def Time.FormatRFC3339 (t : Time) : String :=
  let a := t.sec + t.offset
  let days := a.fdiv 86400
  let s := a.fmod 86400
  let (y, m, d) := civilFromDays days
  appendInt y 4 ++ "-" ++ appendInt m 2 ++ "-" ++ appendInt d 2 ++ "T" ++
    appendInt (s.fdiv 3600) 2 ++ ":" ++ appendInt ((s.fmod 3600).fdiv 60) 2 ++ ":" ++
    appendInt (s.fmod 60) 2 ++ zoneSuffix t.offset

/-! ## Entry construction (lines 55-74) -/

/-- Go `(*LogCollector).AddLog` (lines 55-65): builds the entry and starts one
goroutine on it; `now` is what `time.Now()` returns. -/
def LogCollector.AddLog (lc : LogCollector) (now : Time)
    (traceID logLevel message : GoString) : Goroutine :=
  let entry : LogEntry :=
    { TimeStamp := utf8 now.UTC.FormatRFC3339
      TraceID := traceID
      ServiceID := lc.config.ServiceID
      ApplicationID := lc.config.ApplicationID
      LogLevel := logLevel
      Log := message }
  { lc := lc, entry := entry }

/-- Go `(*LogCollector).AddLogEntry` (lines 67-74): the three assignments to
the by-value parameter, then one goroutine on the result. -/
def LogCollector.AddLogEntry (lc : LogCollector) (now : Time) (entry : LogEntry) :
    Goroutine :=
  let entry := { entry with ServiceID := lc.config.ServiceID }
  let entry := { entry with ApplicationID := lc.config.ApplicationID }
  let entry :=
    if entry.TimeStamp = utf8 "" then { entry with TimeStamp := utf8 now.UTC.FormatRFC3339 }
    else entry
  { lc := lc, entry := entry }

/-! ## Dispatch (lines 76-100) -/

/-- A JSON object whose members are strings: name and value of each member
as the text they denote, in the order they are written. -/
abbrev JSONObject := List (String × String)

/-- Go `json.Marshal` on a `LogEntry`: one member per field, named by the
struct tag, in field order; the value of a member is `jsonString` of the
field, so invalid UTF-8 in a field is replaced, not reported. Six string
fields always marshal, so the error result is always `nil`. -/
def jsonMarshal (entry : LogEntry) : Except GoError JSONObject :=
  .ok
    [ ("timeStamp", jsonString entry.TimeStamp),
      ("traceId", jsonString entry.TraceID),
      ("serviceId", jsonString entry.ServiceID),
      ("applicationId", jsonString entry.ApplicationID),
      ("logLevel", jsonString entry.LogLevel),
      ("log", jsonString entry.Log) ]

/-- Go `http.Header`, one value per key. -/
abbrev Header := List (GoString × GoString)

/-- Go `Header.Set`: the key's values are replaced by the one value. -/
def Header.Set (h : Header) (key value : GoString) : Header :=
  h.filter (fun kv => kv.1 ≠ key) ++ [(key, value)]

/-- The part of `http.Request` the package fills: method, the URL string it
was created from, headers and body. -/
structure Request where
  Method : GoString
  URL : GoString
  Header : Header
  Body : JSONObject
  deriving DecidableEq, Repr

/-- The part of `http.Response` the package reads. -/
structure Response where
  StatusCode : Int
  deriving DecidableEq, Repr

/-- What lies outside the package. `parseURL` is the error of `url.Parse` on
a string that passes its check for control bytes (`none` when it parses);
`Do` is the result of `(*http.Client).Do`: a response or a transport error. -/
structure Env where
  parseURL : GoString → Option GoError
  Do : HTTPClient → Request → Except GoError Response

/-- Go `stringContainsCTLByte` of package `net/url`: some byte is below
0x20 or is 0x7f. -/
def stringContainsCTLByte (s : GoString) : Bool :=
  s.any (fun b => decide (b.val < 0x20) || decide (b.val = 0x7f))

/-- The first result of Go `strings.Cut(rawURL, "#")`: the bytes before the
first `#` (0x23), all of them when there is none. -/
def cutFragment (rawURL : GoString) : GoString :=
  rawURL.takeWhile (fun b => decide (b.val ≠ 0x23))

/-- Go `url.Parse`, its error result. It cuts off the fragment at the first
`#` and first of all rejects what stands before it when that holds a control
byte (a control byte inside the fragment is not rejected); the rest of the
grammar is `Env.parseURL`. -/
def urlParse (env : Env) (rawURL : GoString) : Option GoError :=
  if stringContainsCTLByte (cutFragment rawURL) then
    some (.urlError (utf8 "parse") (cutFragment rawURL)
      (.errorString (utf8 "net/url: invalid control character in URL")))
  else env.parseURL rawURL

/-- Go `http.NewRequest`: fails when the URL does not parse, otherwise a
request with the method, the URL, no header and the body. (Its check of the
method always passes for the literal `POST` used here.) -/
def NewRequest (env : Env) (method url : GoString) (body : JSONObject) :
    Except GoError Request :=
  match urlParse env url with
  | some err => .error err
  | none => .ok { Method := method, URL := url, Header := [], Body := body }

/-- An argument of a `fmt.Printf` call. -/
inductive Arg where
  | err (e : GoError)
  | int (n : Int)
  deriving DecidableEq, Repr

/-- One `fmt.Printf` call: the format string and its argument. -/
structure Printf where
  format : GoString
  arg : Arg
  deriving DecidableEq, Repr

/-- What one run of `sendLog` does to the outside: the requests it hands to
`httpClient.Do`, and the `fmt.Printf` calls it makes, both in order. -/
structure Effects where
  requests : List Request
  stdout : List Printf
  deriving DecidableEq, Repr

/-- Go `(*LogCollector).sendLog` (lines 76-100). The function has no result;
its value here is what it does to the outside. -/
def LogCollector.sendLog (lc : LogCollector) (env : Env) (entry : LogEntry) : Effects :=
  match jsonMarshal entry with
  | .error err =>
    { requests := [], stdout := [⟨utf8 "pushlogs: error marshaling log: %v\n", .err err⟩] }
  | .ok jsonData =>
    match NewRequest env (utf8 "POST") (lc.config.APIBaseURL ++ utf8 "/logs") jsonData with
    | .error err =>
      { requests := [], stdout := [⟨utf8 "pushlogs: error creating request: %v\n", .err err⟩] }
    | .ok req =>
      let req := { req with Header := req.Header.Set (utf8 "Content-Type") (utf8 "application/json") }
      match env.Do lc.httpClient req with
      | .error err =>
        { requests := [req], stdout := [⟨utf8 "pushlogs: error sending log: %v\n", .err err⟩] }
      | .ok resp =>
        if resp.StatusCode < 200 ∨ resp.StatusCode ≥ 300 then
          { requests := [req]
            stdout := [⟨utf8 "pushlogs: log send failed, status: %d\n", .int resp.StatusCode⟩] }
        else
          { requests := [req], stdout := [] }

/-- Running a started goroutine: `lc.sendLog(entry)`. -/
def Goroutine.run (env : Env) (g : Goroutine) : Effects :=
  g.lc.sendLog env g.entry

/-- The goroutines a call started: those of the state after it that were not
in the state before it. -/
def spawnedBy (before after : World) : List Goroutine :=
  after.goroutines.drop before.goroutines.length

/-- The effects of running a list of goroutines one after the other. -/
def runAll (env : Env) (gs : List Goroutine) : Effects :=
  { requests := (gs.map (fun g => (g.run env).requests)).flatten
    stdout := (gs.map (fun g => (g.run env).stdout)).flatten }

/-! ## The package-level API (lines 102-122) -/

/-- Go `Log` (lines 102-106). -/
def Log (w : World) (now : Time) (traceID logLevel message : GoString) : World :=
  match w.defaultCollector with
  | some lc => { w with goroutines := w.goroutines ++ [lc.AddLog now traceID logLevel message] }
  | none => w

/-- Go `Info` (lines 108-110). -/
def Info (w : World) (now : Time) (traceID message : GoString) : World :=
  Log w now traceID (utf8 "INFO") message

/-- Go `Error` (lines 112-114). -/
def Error (w : World) (now : Time) (traceID message : GoString) : World :=
  Log w now traceID (utf8 "ERROR") message

/-- Go `Warning` (lines 116-118). -/
def Warning (w : World) (now : Time) (traceID message : GoString) : World :=
  Log w now traceID (utf8 "WARNING") message

/-- Go `Debug` (lines 120-122). -/
def Debug (w : World) (now : Time) (traceID message : GoString) : World :=
  Log w now traceID (utf8 "DEBUG") message

/-! ## Concrete values used by the witnesses -/

/-- A state in which `Init` has never succeeded. -/
def emptyWorld : World := { defaultCollector := none, goroutines := [] }

/-- A collector as an earlier `Init("https://old.example.com", "old-svc",
"old-app")` leaves it. -/
def oldCollector : LogCollector :=
  { config :=
      { APIBaseURL := utf8 "https://old.example.com"
        ServiceID := utf8 "old-svc"
        ApplicationID := utf8 "old-app"
        Timeout := 15 * Second }
    httpClient := { Timeout := 15 * Second } }

/-- A state in which an earlier `Init` has stored `oldCollector`. -/
def oldWorld : World := { defaultCollector := some oldCollector, goroutines := [] }

/-- The clock reading 2023-11-14T22:13:20Z, taken in a zone five and a half
hours east of UTC. -/
def sampleNow : Time := { sec := 1700000000, nsec := 5, offset := 19800 }

/-- A caller-built entry whose identifiers differ from every collector used
here and whose timestamp is set. -/
def sampleEntry : LogEntry :=
  { TimeStamp := utf8 "yesterday"
    TraceID := utf8 "trace-7"
    ServiceID := utf8 "forged-svc"
    ApplicationID := utf8 "forged-app"
    LogLevel := utf8 "INFO"
    Log := utf8 "hello" }

/-- An outside in which every URL that passes the check for control bytes
parses and the server answers every request with the given status. -/
def answering (status : Int) : Env :=
  { parseURL := fun _ => none
    Do := fun _ _ => .ok { StatusCode := status } }

/-- An outside in which every URL that passes the check for control bytes
parses and every request fails in the transport. -/
def unreachable : Env :=
  { parseURL := fun _ => none
    Do := fun _ req =>
      .error (.urlError (utf8 "Post") req.URL
        (.errorString (utf8 "dial tcp: connection refused"))) }

/-- The request `sendLog` builds for an entry on a collector: `POST` to the
base URL followed by `/logs`, the one header `Content-Type:
application/json`, and the six members of the entry as body. -/
def expectedRequest (baseURL : GoString) (entry : LogEntry) : Request :=
  { Method := utf8 "POST"
    URL := baseURL ++ utf8 "/logs"
    Header := [(utf8 "Content-Type", utf8 "application/json")]
    Body :=
      [ ("timeStamp", jsonString entry.TimeStamp),
        ("traceId", jsonString entry.TraceID),
        ("serviceId", jsonString entry.ServiceID),
        ("applicationId", jsonString entry.ApplicationID),
        ("logLevel", jsonString entry.LogLevel),
        ("log", jsonString entry.Log) ] }

/-- A Go string that is not valid UTF-8: the single byte 0xFF. -/
def invalidUTF8 : GoString := [byte 0xFF]

/-! ## Theorems -/

/-! ### UTF-8: decoding what was encoded -/

/-- The value of `byte n`. -/
theorem byte_val (n : Nat) : (byte n).val = n % 256 := rfl

/-- A `Char` is a Unicode scalar value. -/
theorem char_valid_toNat (c : Char) :
    c.toNat < 0xD800 ∨ (0xDFFF < c.toNat ∧ c.toNat < 0x110000) := c.valid

/-- Decoding a one-byte encoding. -/
theorem DecodeRune_one (n : Nat) (h : n < 0x80) (rest : GoString) :
    DecodeRune (byte n) rest = (Char.ofNat n, 1) := by
  have e0 : n % 256 = n := by omega
  simp only [DecodeRune, byte_val, e0, if_pos h]

/-- Decoding a two-byte encoding. -/
theorem DecodeRune_two (n : Nat) (h1 : 0x80 ≤ n) (h2 : n < 0x800) (rest : GoString) :
    DecodeRune (byte (0xC0 + n / 64)) (byte (0x80 + n % 64) :: rest) = (Char.ofNat n, 2) := by
  have e0 : (0xC0 + n / 64) % 256 = 0xC0 + n / 64 := by omega
  have e1 : (0x80 + n % 64) % 256 = 0x80 + n % 64 := by omega
  have v : (0xC0 + n / 64) % 32 * 64 + (0x80 + n % 64) % 64 = n := by omega
  have a0 : ¬ (0xC0 + n / 64 < 0x80) := by omega
  have a1 : ¬ (0xC0 + n / 64 < 0xC2 ∨ 0xF4 < 0xC0 + n / 64) := by omega
  have l1 : ¬ (0xC0 + n / 64 = 0xE0) := by omega
  have l2 : ¬ (0xC0 + n / 64 = 0xF0) := by omega
  have l3 : ¬ (0xC0 + n / 64 = 0xED) := by omega
  have l4 : ¬ (0xC0 + n / 64 = 0xF4) := by omega
  have a2 : ¬ (0x80 + n % 64 < 0x80 ∨ 0xBF < 0x80 + n % 64) := by omega
  have a3 : 0xC0 + n / 64 < 0xE0 := by omega
  unfold DecodeRune
  simp only [byte_val, acceptLo, acceptHi, e0, e1, v]
  rw [if_neg a0, if_neg a1, if_neg l1, if_neg l2, if_neg l3, if_neg l4, if_neg a2, if_pos a3]

/-- Decoding a three-byte encoding of a scalar value (not a surrogate). -/
theorem DecodeRune_three (n : Nat) (h1 : 0x800 ≤ n) (h2 : n < 0x10000)
    (hv : n < 0xD800 ∨ 0xDFFF < n) (rest : GoString) :
    DecodeRune (byte (0xE0 + n / 4096))
      (byte (0x80 + n / 64 % 64) :: byte (0x80 + n % 64) :: rest) = (Char.ofNat n, 3) := by
  have e0 : (0xE0 + n / 4096) % 256 = 0xE0 + n / 4096 := by omega
  have e1 : (0x80 + n / 64 % 64) % 256 = 0x80 + n / 64 % 64 := by omega
  have e2 : (0x80 + n % 64) % 256 = 0x80 + n % 64 := by omega
  have v : (0xE0 + n / 4096) % 16 * 4096 + (0x80 + n / 64 % 64) % 64 * 64
      + (0x80 + n % 64) % 64 = n := by omega
  have a0 : ¬ (0xE0 + n / 4096 < 0x80) := by omega
  have a1 : ¬ (0xE0 + n / 4096 < 0xC2 ∨ 0xF4 < 0xE0 + n / 4096) := by omega
  have a2 : ¬ (0xE0 + n / 4096 < 0xE0) := by omega
  have a3 : ¬ (0x80 + n % 64 < 0x80 ∨ 0xBF < 0x80 + n % 64) := by omega
  have a4 : 0xE0 + n / 4096 < 0xF0 := by omega
  have l2 : ¬ (0xE0 + n / 4096 = 0xF0) := by omega
  have l4 : ¬ (0xE0 + n / 4096 = 0xF4) := by omega
  have acc : ¬ ((0x80 + n / 64 % 64 <
        if 0xE0 + n / 4096 = 0xE0 then 0xA0 else if 0xE0 + n / 4096 = 0xF0 then 0x90 else 0x80) ∨
      (if 0xE0 + n / 4096 = 0xED then 0x9F else if 0xE0 + n / 4096 = 0xF4 then 0x8F else 0xBF)
        < 0x80 + n / 64 % 64) := by
    rw [if_neg l2, if_neg l4]
    split_ifs <;> omega
  unfold DecodeRune
  simp only [byte_val, acceptLo, acceptHi, e0, e1, e2, v]
  rw [if_neg a0, if_neg a1, if_neg acc, if_neg a2, if_neg a3, if_pos a4]

/-- Decoding a four-byte encoding. -/
theorem DecodeRune_four (n : Nat) (h1 : 0x10000 ≤ n) (h2 : n < 0x110000) (rest : GoString) :
    DecodeRune (byte (0xF0 + n / 262144))
      (byte (0x80 + n / 4096 % 64) :: byte (0x80 + n / 64 % 64) :: byte (0x80 + n % 64) :: rest)
      = (Char.ofNat n, 4) := by
  have e0 : (0xF0 + n / 262144) % 256 = 0xF0 + n / 262144 := by omega
  have e1 : (0x80 + n / 4096 % 64) % 256 = 0x80 + n / 4096 % 64 := by omega
  have e2 : (0x80 + n / 64 % 64) % 256 = 0x80 + n / 64 % 64 := by omega
  have e3 : (0x80 + n % 64) % 256 = 0x80 + n % 64 := by omega
  have v : (0xF0 + n / 262144) % 8 * 262144 + (0x80 + n / 4096 % 64) % 64 * 4096
      + (0x80 + n / 64 % 64) % 64 * 64 + (0x80 + n % 64) % 64 = n := by omega
  have a0 : ¬ (0xF0 + n / 262144 < 0x80) := by omega
  have a1 : ¬ (0xF0 + n / 262144 < 0xC2 ∨ 0xF4 < 0xF0 + n / 262144) := by omega
  have a2 : ¬ (0xF0 + n / 262144 < 0xE0) := by omega
  have a3 : ¬ (0x80 + n / 64 % 64 < 0x80 ∨ 0xBF < 0x80 + n / 64 % 64) := by omega
  have a4 : ¬ (0xF0 + n / 262144 < 0xF0) := by omega
  have a5 : ¬ (0x80 + n % 64 < 0x80 ∨ 0xBF < 0x80 + n % 64) := by omega
  have l1 : ¬ (0xF0 + n / 262144 = 0xE0) := by omega
  have l3 : ¬ (0xF0 + n / 262144 = 0xED) := by omega
  have acc : ¬ ((0x80 + n / 4096 % 64 <
        if 0xF0 + n / 262144 = 0xE0 then 0xA0
        else if 0xF0 + n / 262144 = 0xF0 then 0x90 else 0x80) ∨
      (if 0xF0 + n / 262144 = 0xED then 0x9F
        else if 0xF0 + n / 262144 = 0xF4 then 0x8F else 0xBF)
        < 0x80 + n / 4096 % 64) := by
    rw [if_neg l1, if_neg l3]
    split_ifs <;> omega
  unfold DecodeRune
  simp only [byte_val, acceptLo, acceptHi, e0, e1, e2, e3, v]
  rw [if_neg a0, if_neg a1, if_neg acc, if_neg a2, if_neg a3, if_neg a4, if_neg a5]

/-- Reading the encoding of one scalar value gives it back and moves past
it. -/
theorem decodeFrom_encodeRune (c : Char) (rest : GoString) :
    decodeFrom 0 (encodeRune c ++ rest) = c :: decodeFrom 0 rest := by
  have hv := char_valid_toNat c
  have hc : Char.ofNat c.toNat = c := Char.ofNat_toNat c
  unfold encodeRune
  dsimp only
  generalize c.toNat = n at hv hc
  by_cases h1 : n < 0x80
  · rw [if_pos h1]
    simp only [List.cons_append, List.nil_append, List.append_eq, decodeFrom,
      DecodeRune_one n h1, hc]
  · rw [if_neg h1]
    by_cases h2 : n < 0x800
    · rw [if_pos h2]
      simp only [List.cons_append, List.nil_append, List.append_eq, decodeFrom,
        DecodeRune_two n (by omega) h2, hc]
    · rw [if_neg h2]
      by_cases h3 : n < 0x10000
      · rw [if_pos h3]
        simp only [List.cons_append, List.nil_append, List.append_eq, decodeFrom,
          DecodeRune_three n (by omega) h3 (by omega), hc]
      · rw [if_neg h3]
        simp only [List.cons_append, List.nil_append, List.append_eq, decodeFrom,
          DecodeRune_four n (by omega) (by omega), hc]

/-- A Go string that is the UTF-8 encoding of a text is written to JSON as
that text, unchanged. -/
theorem jsonString_utf8 (s : String) : jsonString (utf8 s) = s := by
  unfold jsonString utf8
  have h : ∀ cs : List Char, decodeFrom 0 (cs.flatMap encodeRune) = cs := by
    intro cs
    induction cs with
    | nil => rfl
    | cons c cs ih => rw [List.flatMap_cons, decodeFrom_encodeRune, ih]
  rw [h]

/-- The empty Go string is the only one of length zero: `s == ""` in Go is
`s = utf8 ""` here, and `utf8 ""` is the empty byte list. -/
theorem utf8_empty : utf8 "" = [] := rfl

/-! ### `Init` -/

/-- With three non-empty strings `Init` takes its second branch. -/
theorem Init_of_nonempty (w : World) (apiBaseURL serviceID applicationID : GoString)
    (h1 : apiBaseURL ≠ utf8 "") (h2 : serviceID ≠ utf8 "") (h3 : applicationID ≠ utf8 "") :
    Init w apiBaseURL serviceID applicationID =
      ({ w with
          defaultCollector := some
            { config :=
                { APIBaseURL := apiBaseURL
                  ServiceID := serviceID
                  ApplicationID := applicationID
                  Timeout := 15000000000 }
              httpClient := { Timeout := 15000000000 } } },
        none) := by
  have h : ¬ (apiBaseURL = utf8 "" ∨ serviceID = utf8 "" ∨ applicationID = utf8 "") := by
    tauto
  have hs : (15 : Int) * Second = 15000000000 := by decide
  unfold Init
  rw [if_neg h]
  simp only [hs]

/-- C1: `Init` returns its validation error exactly when one of the three
strings is empty, and returns `nil` exactly when all three are non-empty,
whatever the prior state. -/
theorem Init_error_iff_empty (w : World) (apiBaseURL serviceID applicationID : GoString) :
    ((Init w apiBaseURL serviceID applicationID).2 = some initError ↔
        (apiBaseURL = utf8 "" ∨ serviceID = utf8 "" ∨ applicationID = utf8 "")) ∧
    ((Init w apiBaseURL serviceID applicationID).2 = none ↔
        (apiBaseURL ≠ utf8 "" ∧ serviceID ≠ utf8 "" ∧ applicationID ≠ utf8 "")) := by
  unfold Init
  by_cases h : apiBaseURL = utf8 "" ∨ serviceID = utf8 "" ∨ applicationID = utf8 ""
  · rw [if_pos h]
    refine ⟨⟨fun _ => h, fun _ => rfl⟩, ⟨fun hn => ?_, fun hne => ?_⟩⟩
    · exact absurd hn (by simp)
    · rcases h with h | h | h
      · exact absurd h hne.1
      · exact absurd h hne.2.1
      · exact absurd h hne.2.2
  · rw [if_neg h]
    refine ⟨⟨fun hs => ?_, fun he => absurd he h⟩, ⟨fun _ => ?_, fun _ => rfl⟩⟩
    · exact absurd hs (by simp)
    · exact ⟨fun e => h (Or.inl e), fun e => h (Or.inr (Or.inl e)),
        fun e => h (Or.inr (Or.inr e))⟩

/-- C2: a call of `Init` that fails leaves the process state as it was: the
collector stays unset if it was unset and keeps its value (base URL, service
ID, application ID, timeouts) if it was set. -/
theorem Init_failure_keeps_state (w : World) (apiBaseURL serviceID applicationID : GoString)
    (hfail : (Init w apiBaseURL serviceID applicationID).2 ≠ none) :
    (Init w apiBaseURL serviceID applicationID).1 = w ∧
    (w.defaultCollector = none →
        (Init w apiBaseURL serviceID applicationID).1.defaultCollector = none) ∧
    (∀ lc, w.defaultCollector = some lc →
        (Init w apiBaseURL serviceID applicationID).1.defaultCollector = some lc) := by
  have hw : (Init w apiBaseURL serviceID applicationID).1 = w := by
    unfold Init at hfail ⊢
    by_cases h : apiBaseURL = utf8 "" ∨ serviceID = utf8 "" ∨ applicationID = utf8 ""
    · simp only [if_pos h]
    · simp only [if_neg h] at hfail
      exact absurd rfl hfail
  rw [hw]
  exact ⟨rfl, fun h => h, fun _ h => h⟩

/-- Witness for C2: with `oldCollector` stored, `Init` with an empty service
ID fails and the stored collector is still `oldCollector`. -/
theorem Init_failure_keeps_state_witness :
    (Init oldWorld (utf8 "https://logs.example.com") (utf8 "") (utf8 "app-1")).2 ≠ none ∧
    (Init oldWorld (utf8 "https://logs.example.com") (utf8 "") (utf8 "app-1")).1 = oldWorld ∧
    (Init oldWorld (utf8 "https://logs.example.com") (utf8 "")
      (utf8 "app-1")).1.defaultCollector = some oldCollector :=
  have h : (Init oldWorld (utf8 "https://logs.example.com") (utf8 "")
      (utf8 "app-1")).2 ≠ none := by decide
  ⟨h,
    (Init_failure_keeps_state oldWorld (utf8 "https://logs.example.com") (utf8 "")
      (utf8 "app-1") h).1,
    (Init_failure_keeps_state oldWorld (utf8 "https://logs.example.com") (utf8 "")
      (utf8 "app-1") h).2.2 oldCollector rfl⟩

/-- C3: with three non-empty strings `Init` succeeds and the stored collector
is exactly the one built from them with a timeout of 15 seconds (15 000 000 000
nanoseconds) in both the configuration and the HTTP client; the prior
collector does not enter the result. -/
theorem Init_success_stores (w : World) (apiBaseURL serviceID applicationID : GoString)
    (h1 : apiBaseURL ≠ utf8 "") (h2 : serviceID ≠ utf8 "") (h3 : applicationID ≠ utf8 "") :
    (Init w apiBaseURL serviceID applicationID).2 = none ∧
    (Init w apiBaseURL serviceID applicationID).1.defaultCollector =
      some
        { config :=
            { APIBaseURL := apiBaseURL
              ServiceID := serviceID
              ApplicationID := applicationID
              Timeout := 15000000000 }
          httpClient := { Timeout := 15000000000 } } := by
  rw [Init_of_nonempty w apiBaseURL serviceID applicationID h1 h2 h3]
  exact ⟨rfl, rfl⟩

/-- Witness for C3: over a state that holds `oldCollector`, a successful
`Init` stores the new values only. -/
theorem Init_success_stores_witness :
    (Init oldWorld (utf8 "https://logs.example.com") (utf8 "svc-1") (utf8 "app-1")).2 = none ∧
    (Init oldWorld (utf8 "https://logs.example.com") (utf8 "svc-1")
      (utf8 "app-1")).1.defaultCollector =
      some
        { config :=
            { APIBaseURL := utf8 "https://logs.example.com"
              ServiceID := utf8 "svc-1"
              ApplicationID := utf8 "app-1"
              Timeout := 15000000000 }
          httpClient := { Timeout := 15000000000 } } :=
  Init_success_stores oldWorld (utf8 "https://logs.example.com") (utf8 "svc-1") (utf8 "app-1")
    (by decide) (by decide) (by decide)

/-! ### `AddLogEntry` -/

/-- C4: the goroutine `AddLogEntry` starts runs `sendLog` on the same
collector with an entry whose `ServiceID` and `ApplicationID` are the
collector's configured ones, whatever the caller put in the entry. -/
theorem AddLogEntry_overwrites_identity (lc : LogCollector) (now : Time) (entry : LogEntry) :
    (lc.AddLogEntry now entry).lc = lc ∧
    (lc.AddLogEntry now entry).entry.ServiceID = lc.config.ServiceID ∧
    (lc.AddLogEntry now entry).entry.ApplicationID = lc.config.ApplicationID := by
  unfold LogCollector.AddLogEntry
  refine ⟨rfl, ?_, ?_⟩ <;> dsimp only <;> split <;> rfl

/-- Witness for C4: an entry carrying `forged-svc` and `forged-app` is
dispatched with the identifiers of `oldCollector`. -/
theorem AddLogEntry_overwrites_identity_witness :
    sampleEntry.ServiceID ≠ oldCollector.config.ServiceID ∧
    sampleEntry.ApplicationID ≠ oldCollector.config.ApplicationID ∧
    (oldCollector.AddLogEntry sampleNow sampleEntry).entry.ServiceID = utf8 "old-svc" ∧
    (oldCollector.AddLogEntry sampleNow sampleEntry).entry.ApplicationID = utf8 "old-app" :=
  ⟨by decide, by decide,
    (AddLogEntry_overwrites_identity oldCollector sampleNow sampleEntry).2.1,
    (AddLogEntry_overwrites_identity oldCollector sampleNow sampleEntry).2.2⟩

/-- C5: `AddLogEntry` dispatches a non-empty `TimeStamp` unchanged, and
replaces an empty one by the clock reading, taken to UTC and formatted as
RFC3339. -/
theorem AddLogEntry_timestamp (lc : LogCollector) (now : Time) (entry : LogEntry) :
    (entry.TimeStamp ≠ utf8 "" →
        (lc.AddLogEntry now entry).entry.TimeStamp = entry.TimeStamp) ∧
    (entry.TimeStamp = utf8 "" →
        (lc.AddLogEntry now entry).entry.TimeStamp = utf8 now.UTC.FormatRFC3339) := by
  unfold LogCollector.AddLogEntry
  refine ⟨fun h => ?_, fun h => ?_⟩
  · dsimp only
    rw [if_neg h]
  · dsimp only
    rw [if_pos h]

/-- Witness for C5: the timestamp `yesterday` (not even a date) is kept; an
empty one becomes `2023-11-14T22:13:20Z`, the UTC form of a clock reading
taken at +05:30. -/
theorem AddLogEntry_timestamp_witness :
    (oldCollector.AddLogEntry sampleNow sampleEntry).entry.TimeStamp = utf8 "yesterday" ∧
    (oldCollector.AddLogEntry sampleNow
      { sampleEntry with TimeStamp := utf8 "" }).entry.TimeStamp
      = utf8 "2023-11-14T22:13:20Z" :=
  ⟨(AddLogEntry_timestamp oldCollector sampleNow sampleEntry).1 (by decide),
    ((AddLogEntry_timestamp oldCollector sampleNow
      { sampleEntry with TimeStamp := utf8 "" }).2 rfl).trans (by decide)⟩

/-! ### The package-level API -/

/-- C6: with the process-wide collector set, `Info`, `Error`, `Warning` and
`Debug` start exactly the goroutine that `AddLog` on that collector starts
with the level `INFO`, `ERROR`, `WARNING`, `DEBUG`, and nothing else
changes. -/
theorem severity_wrappers_refine_AddLog (w : World) (lc : LogCollector) (now : Time)
    (traceID message : GoString) (hset : w.defaultCollector = some lc) :
    Info w now traceID message =
      { w with goroutines := w.goroutines ++ [lc.AddLog now traceID (utf8 "INFO") message] } ∧
    Error w now traceID message =
      { w with goroutines := w.goroutines ++ [lc.AddLog now traceID (utf8 "ERROR") message] } ∧
    Warning w now traceID message =
      { w with
        goroutines := w.goroutines ++ [lc.AddLog now traceID (utf8 "WARNING") message] } ∧
    Debug w now traceID message =
      { w with goroutines := w.goroutines ++ [lc.AddLog now traceID (utf8 "DEBUG") message] } := by
  unfold Info Error Warning Debug Log
  simp only [hset, and_self]

/-- Witness for C6: on a state holding `oldCollector`, each wrapper starts one
goroutine, the one `AddLog` starts with the wrapper's level. -/
theorem severity_wrappers_refine_AddLog_witness :
    spawnedBy oldWorld (Info oldWorld sampleNow (utf8 "trace-42") (utf8 "started")) =
      [oldCollector.AddLog sampleNow (utf8 "trace-42") (utf8 "INFO") (utf8 "started")] ∧
    spawnedBy oldWorld (Error oldWorld sampleNow (utf8 "trace-42") (utf8 "started")) =
      [oldCollector.AddLog sampleNow (utf8 "trace-42") (utf8 "ERROR") (utf8 "started")] ∧
    spawnedBy oldWorld (Warning oldWorld sampleNow (utf8 "trace-42") (utf8 "started")) =
      [oldCollector.AddLog sampleNow (utf8 "trace-42") (utf8 "WARNING") (utf8 "started")] ∧
    spawnedBy oldWorld (Debug oldWorld sampleNow (utf8 "trace-42") (utf8 "started")) =
      [oldCollector.AddLog sampleNow (utf8 "trace-42") (utf8 "DEBUG") (utf8 "started")] := by
  have h := severity_wrappers_refine_AddLog oldWorld oldCollector sampleNow
    (utf8 "trace-42") (utf8 "started") rfl
  rw [h.1, h.2.1, h.2.2.1, h.2.2.2]
  exact ⟨rfl, rfl, rfl, rfl⟩

/-- C7: with the process-wide collector unset, `Log` (at every level),
`Info`, `Error`, `Warning` and `Debug` return the state they were given: no
goroutine is started, so no request is made and nothing is printed, and the
collector is still unset. The functions are total and have no error
result. -/
theorem log_calls_noop_when_unset (w : World) (env : Env) (now : Time)
    (traceID logLevel message : GoString) (hunset : w.defaultCollector = none) :
    (∀ w2 ∈ [Log w now traceID logLevel message, Info w now traceID message,
        Error w now traceID message, Warning w now traceID message,
        Debug w now traceID message],
      w2 = w ∧ w2.defaultCollector = none ∧ spawnedBy w w2 = [] ∧
      (runAll env (spawnedBy w w2)).requests = [] ∧
      (runAll env (spawnedBy w w2)).stdout = []) := by
  have hlog : ∀ level, Log w now traceID level message = w := by
    intro level
    unfold Log
    rw [hunset]
  have hsp : spawnedBy w w = [] := by
    unfold spawnedBy
    exact List.drop_length w.goroutines
  intro w2 hw2
  have hw : w2 = w := by
    simp only [List.mem_cons, List.mem_singleton, List.not_mem_nil, or_false] at hw2
    unfold Info Error Warning Debug at hw2
    rcases hw2 with h | h | h | h | h <;> rw [h] <;> exact hlog _
  subst hw
  rw [hsp]
  exact ⟨rfl, hunset, rfl, rfl, rfl⟩

/-- Witness for C7: on the state in which `Init` never succeeded, `Info`
changes nothing and causes no request and no output, even when the server
would answer. -/
theorem log_calls_noop_when_unset_witness :
    Info emptyWorld sampleNow (utf8 "trace-42") (utf8 "started") = emptyWorld ∧
    (runAll (answering 200)
      (spawnedBy emptyWorld
        (Info emptyWorld sampleNow (utf8 "trace-42") (utf8 "started")))).requests = [] ∧
    (runAll (answering 200)
      (spawnedBy emptyWorld
        (Info emptyWorld sampleNow (utf8 "trace-42") (utf8 "started")))).stdout = [] :=
  have h := log_calls_noop_when_unset emptyWorld (answering 200) sampleNow
    (utf8 "trace-42") (utf8 "INFO") (utf8 "started") rfl
    (Info emptyWorld sampleNow (utf8 "trace-42") (utf8 "started")) (by simp)
  ⟨h.1, h.2.2.2.1, h.2.2.2.2⟩

/-! ### `sendLog` -/

/-- What `sendLog` does when the URL is rejected: no request, one record. -/
theorem sendLog_of_parse_error (lc : LogCollector) (env : Env) (entry : LogEntry)
    (err : GoError) (h : urlParse env (lc.config.APIBaseURL ++ utf8 "/logs") = some err) :
    lc.sendLog env entry =
      { requests := []
        stdout := [⟨utf8 "pushlogs: error creating request: %v\n", .err err⟩] } := by
  unfold LogCollector.sendLog jsonMarshal NewRequest
  simp only [h]

/-- What `sendLog` does when the URL is accepted: it hands `expectedRequest`
to `Do`, once, and prints according to the outcome. -/
theorem sendLog_of_parse_ok (lc : LogCollector) (env : Env) (entry : LogEntry)
    (h : urlParse env (lc.config.APIBaseURL ++ utf8 "/logs") = none) :
    lc.sendLog env entry =
      { requests := [expectedRequest lc.config.APIBaseURL entry]
        stdout :=
          match env.Do lc.httpClient (expectedRequest lc.config.APIBaseURL entry) with
          | .error err => [⟨utf8 "pushlogs: error sending log: %v\n", .err err⟩]
          | .ok resp =>
            if resp.StatusCode < 200 ∨ resp.StatusCode ≥ 300 then
              [⟨utf8 "pushlogs: log send failed, status: %d\n", .int resp.StatusCode⟩]
            else [] } := by
  have hs : Header.Set [] (utf8 "Content-Type") (utf8 "application/json")
      = [(utf8 "Content-Type", utf8 "application/json")] := rfl
  unfold LogCollector.sendLog jsonMarshal NewRequest expectedRequest
  simp only [h, hs]
  split
  · rfl
  · split <;> rfl

/-- C8: `sendLog` hands at most one request to the HTTP client, whatever
happens. When `http.NewRequest` accepts the URL, it hands over exactly one,
the `POST` of the entry, and then: a response with status in [200, 300)
prints nothing; a response with status below 200 or at least 300 prints
exactly one record; a transport error prints exactly one record. -/
theorem sendLog_classifies_outcome (lc : LogCollector) (env : Env) (entry : LogEntry) :
    (lc.sendLog env entry).requests.length ≤ 1 ∧
    (urlParse env (lc.config.APIBaseURL ++ utf8 "/logs") = none →
      (lc.sendLog env entry).requests = [expectedRequest lc.config.APIBaseURL entry] ∧
      (∀ resp,
        env.Do lc.httpClient (expectedRequest lc.config.APIBaseURL entry) = .ok resp →
        200 ≤ resp.StatusCode → resp.StatusCode < 300 →
          (lc.sendLog env entry).stdout = []) ∧
      (∀ resp,
        env.Do lc.httpClient (expectedRequest lc.config.APIBaseURL entry) = .ok resp →
        (resp.StatusCode < 200 ∨ 300 ≤ resp.StatusCode) →
          (lc.sendLog env entry).stdout =
            [⟨utf8 "pushlogs: log send failed, status: %d\n", .int resp.StatusCode⟩]) ∧
      (∀ err,
        env.Do lc.httpClient (expectedRequest lc.config.APIBaseURL entry) = .error err →
          (lc.sendLog env entry).stdout =
            [⟨utf8 "pushlogs: error sending log: %v\n", .err err⟩])) := by
  refine ⟨?_, fun hp => ?_⟩
  · cases hp : urlParse env (lc.config.APIBaseURL ++ utf8 "/logs") with
    | some e =>
      rw [sendLog_of_parse_error lc env entry e hp]
      exact Nat.zero_le 1
    | none =>
      rw [sendLog_of_parse_ok lc env entry hp]
      exact Nat.le_refl 1
  · rw [sendLog_of_parse_ok lc env entry hp]
    refine ⟨rfl, ?_, ?_, ?_⟩
    · intro resp hdo h200 h300
      simp only [hdo]
      rw [if_neg]
      rintro (h | h)
      · exact absurd h200 (not_le.mpr h)
      · exact absurd h300 (not_lt.mpr h)
    · intro resp hdo hbad
      simp only [hdo]
      rw [if_pos]
      rcases hbad with h | h
      · exact Or.inl h
      · exact Or.inr h
    · intro err hdo
      simp only [hdo]

/-- Witness for C8: on `oldCollector`, a server answering 204 gets one request
and leaves the output empty; one answering 199, 300 or 503 yields one record
with that status; a refused connection yields one record after one request. -/
theorem sendLog_classifies_outcome_witness :
    (oldCollector.sendLog (answering 204) sampleEntry).requests =
      [expectedRequest (utf8 "https://old.example.com") sampleEntry] ∧
    (oldCollector.sendLog (answering 204) sampleEntry).stdout = [] ∧
    (oldCollector.sendLog (answering 199) sampleEntry).stdout =
      [⟨utf8 "pushlogs: log send failed, status: %d\n", .int 199⟩] ∧
    (oldCollector.sendLog (answering 300) sampleEntry).stdout =
      [⟨utf8 "pushlogs: log send failed, status: %d\n", .int 300⟩] ∧
    (oldCollector.sendLog (answering 503) sampleEntry).stdout =
      [⟨utf8 "pushlogs: log send failed, status: %d\n", .int 503⟩] ∧
    (oldCollector.sendLog unreachable sampleEntry).requests =
      [expectedRequest (utf8 "https://old.example.com") sampleEntry] ∧
    (oldCollector.sendLog unreachable sampleEntry).stdout =
      [⟨utf8 "pushlogs: error sending log: %v\n",
        .err (.urlError (utf8 "Post") (utf8 "https://old.example.com/logs")
          (.errorString (utf8 "dial tcp: connection refused")))⟩] :=
  ⟨((sendLog_classifies_outcome oldCollector (answering 204) sampleEntry).2 (by decide)).1,
    ((sendLog_classifies_outcome oldCollector (answering 204) sampleEntry).2 (by decide)).2.1
      ⟨204⟩ rfl (by decide) (by decide),
    ((sendLog_classifies_outcome oldCollector (answering 199) sampleEntry).2 (by decide)).2.2.1
      ⟨199⟩ rfl (by decide),
    ((sendLog_classifies_outcome oldCollector (answering 300) sampleEntry).2 (by decide)).2.2.1
      ⟨300⟩ rfl (by decide),
    ((sendLog_classifies_outcome oldCollector (answering 503) sampleEntry).2 (by decide)).2.2.1
      ⟨503⟩ rfl (by decide),
    ((sendLog_classifies_outcome oldCollector unreachable sampleEntry).2 (by decide)).1,
    (((sendLog_classifies_outcome oldCollector unreachable sampleEntry).2 (by decide)).2.2.2
      _ rfl).trans (by decide)⟩

/-! ### `Log` after `Init` -/

/-- With the collector set, `Log` starts the one goroutine of `AddLog`. -/
theorem spawnedBy_Log (w : World) (lc : LogCollector) (now : Time)
    (traceID logLevel message : GoString) (hset : w.defaultCollector = some lc) :
    spawnedBy w (Log w now traceID logLevel message) =
      [lc.AddLog now traceID logLevel message] := by
  unfold spawnedBy Log
  simp only [hset]
  exact List.drop_left w.goroutines _

/-- Running a single goroutine. -/
theorem runAll_singleton (env : Env) (g : Goroutine) :
    runAll env [g] = g.run env := by
  unfold runAll
  simp

/-- A control byte inside the fragment does not make `url.Parse` fail: only
what stands before the first `#` is checked. -/
theorem urlParse_control_byte_in_fragment :
    stringContainsCTLByte (utf8 "https://logs.example.com#a\n/logs") = true ∧
    urlParse (answering 200) (utf8 "https://logs.example.com#a\n/logs") = none := by
  decide

/-- C9 as stated fails, in two ways. (1) After a successful `Init` whose base
URL ends in a line feed, `Info("trace-42", "started")` starts one send, but
`http.NewRequest` rejects the URL, so no request is issued, even though the
server would answer 200; one record is printed instead. (2) After
`Init("https://logs.example.com", "svc-1", "app-1")`, `Info` with the message
`"\xff"` (not valid UTF-8) posts a body whose `log` value is U+FFFD, which is
not the message. -/
theorem Log_issues_no_request_on_rejected_URL :
    (utf8 "https://logs.example.com\n" ≠ utf8 "" ∧
      (Init emptyWorld (utf8 "https://logs.example.com\n") (utf8 "svc-1")
        (utf8 "app-1")).2 = none ∧
      (spawnedBy
        (Init emptyWorld (utf8 "https://logs.example.com\n") (utf8 "svc-1") (utf8 "app-1")).1
        (Info
          (Init emptyWorld (utf8 "https://logs.example.com\n") (utf8 "svc-1") (utf8 "app-1")).1
          sampleNow (utf8 "trace-42") (utf8 "started"))).length = 1 ∧
      runAll (answering 200)
        (spawnedBy
          (Init emptyWorld (utf8 "https://logs.example.com\n") (utf8 "svc-1")
            (utf8 "app-1")).1
          (Info
            (Init emptyWorld (utf8 "https://logs.example.com\n") (utf8 "svc-1")
              (utf8 "app-1")).1
            sampleNow (utf8 "trace-42") (utf8 "started"))) =
        { requests := []
          stdout :=
            [⟨utf8 "pushlogs: error creating request: %v\n",
              .err (.urlError (utf8 "parse") (utf8 "https://logs.example.com\n/logs")
                (.errorString (utf8 "net/url: invalid control character in URL")))⟩] }) ∧
    ((Init emptyWorld (utf8 "https://logs.example.com") (utf8 "svc-1") (utf8 "app-1")).2 = none ∧
      (runAll (answering 200)
        (spawnedBy
          (Init emptyWorld (utf8 "https://logs.example.com") (utf8 "svc-1") (utf8 "app-1")).1
          (Info
            (Init emptyWorld (utf8 "https://logs.example.com") (utf8 "svc-1")
              (utf8 "app-1")).1
            sampleNow (utf8 "trace-42") invalidUTF8))).requests =
        [ { Method := utf8 "POST"
            URL := utf8 "https://logs.example.com/logs"
            Header := [(utf8 "Content-Type", utf8 "application/json")]
            Body :=
              [ ("timeStamp", "2023-11-14T22:13:20Z"),
                ("traceId", "trace-42"),
                ("serviceId", "svc-1"),
                ("applicationId", "app-1"),
                ("logLevel", "INFO"),
                ("log", String.mk [RuneError]) ] } ] ∧
      utf8 (String.mk [RuneError]) ≠ invalidUTF8) := by
  decide

/-- C9, amended: after `Init` succeeds on three non-empty strings, `Log`
starts exactly one send. If `http.NewRequest` accepts the URL `baseURL`
followed by `/logs`, that send issues exactly one request: a `POST` to that
URL with the header `Content-Type: application/json` and a body whose members
are, in order, `timeStamp` (the clock reading in UTC as RFC3339), `traceId`,
`serviceId`, `applicationId`, `logLevel`, `log`, the value of each of the last
five being the argument read as UTF-8 with every invalid byte replaced by
U+FFFD; an argument that is valid UTF-8 is its own value. If
`http.NewRequest` rejects the URL, the send issues no request and prints one
record. `Info`, `Error`, `Warning` and `Debug` are `Log` at their level. -/
theorem Log_after_Init_posts_entry (w : World) (env : Env) (now : Time)
    (baseURL serviceID applicationID traceID logLevel message : GoString)
    (h1 : baseURL ≠ utf8 "") (h2 : serviceID ≠ utf8 "") (h3 : applicationID ≠ utf8 "") :
    (Init w baseURL serviceID applicationID).2 = none ∧
    (spawnedBy (Init w baseURL serviceID applicationID).1
      (Log (Init w baseURL serviceID applicationID).1 now traceID logLevel message)).length
        = 1 ∧
    (urlParse env (baseURL ++ utf8 "/logs") = none →
      (runAll env (spawnedBy (Init w baseURL serviceID applicationID).1
        (Log (Init w baseURL serviceID applicationID).1 now traceID logLevel message))).requests
      = [ { Method := utf8 "POST"
            URL := baseURL ++ utf8 "/logs"
            Header := [(utf8 "Content-Type", utf8 "application/json")]
            Body :=
              [ ("timeStamp", now.UTC.FormatRFC3339),
                ("traceId", jsonString traceID),
                ("serviceId", jsonString serviceID),
                ("applicationId", jsonString applicationID),
                ("logLevel", jsonString logLevel),
                ("log", jsonString message) ] } ]) ∧
    (∀ text : String, jsonString (utf8 text) = text) ∧
    (∀ err, urlParse env (baseURL ++ utf8 "/logs") = some err →
      runAll env (spawnedBy (Init w baseURL serviceID applicationID).1
        (Log (Init w baseURL serviceID applicationID).1 now traceID logLevel message))
      = { requests := []
          stdout := [⟨utf8 "pushlogs: error creating request: %v\n", .err err⟩] }) ∧
    (∀ w1, Info w1 now traceID message = Log w1 now traceID (utf8 "INFO") message ∧
      Error w1 now traceID message = Log w1 now traceID (utf8 "ERROR") message ∧
      Warning w1 now traceID message = Log w1 now traceID (utf8 "WARNING") message ∧
      Debug w1 now traceID message = Log w1 now traceID (utf8 "DEBUG") message) := by
  have hinit := Init_of_nonempty w baseURL serviceID applicationID h1 h2 h3
  have hsp := spawnedBy_Log (Init w baseURL serviceID applicationID).1 _ now
    traceID logLevel message (by rw [hinit])
  rw [hsp, runAll_singleton]
  refine ⟨by rw [hinit], rfl, fun hok => ?_, jsonString_utf8, fun err herr => ?_,
    fun _ => ⟨rfl, rfl, rfl, rfl⟩⟩
  · unfold Goroutine.run
    rw [sendLog_of_parse_ok _ env _ hok]
    unfold expectedRequest LogCollector.AddLog
    simp only [jsonString_utf8]
  · unfold Goroutine.run
    exact sendLog_of_parse_error _ env _ err herr

/-- Witness for C9. (1) The example of the specification: over a state that
holds an older collector, `Init("https://logs.example.com", "svc-1",
"app-1")` then `Info("trace-42", "started")` issues one `POST` to
`https://logs.example.com/logs` with the six members, stamped
`2023-11-14T22:13:20Z`. (2) A base URL with a control byte inside a fragment
is accepted, and the request is issued. -/
theorem Log_after_Init_posts_entry_witness :
    (runAll (answering 200)
      (spawnedBy
        (Init oldWorld (utf8 "https://logs.example.com") (utf8 "svc-1") (utf8 "app-1")).1
        (Info
          (Init oldWorld (utf8 "https://logs.example.com") (utf8 "svc-1") (utf8 "app-1")).1
          sampleNow (utf8 "trace-42") (utf8 "started")))).requests
    = [ { Method := utf8 "POST"
          URL := utf8 "https://logs.example.com/logs"
          Header := [(utf8 "Content-Type", utf8 "application/json")]
          Body :=
            [ ("timeStamp", "2023-11-14T22:13:20Z"),
              ("traceId", "trace-42"),
              ("serviceId", "svc-1"),
              ("applicationId", "app-1"),
              ("logLevel", "INFO"),
              ("log", "started") ] } ] ∧
    (runAll (answering 200)
      (spawnedBy
        (Init oldWorld (utf8 "https://logs.example.com#a\n") (utf8 "svc-1") (utf8 "app-1")).1
        (Log
          (Init oldWorld (utf8 "https://logs.example.com#a\n") (utf8 "svc-1")
            (utf8 "app-1")).1
          sampleNow (utf8 "trace-42") (utf8 "INFO") (utf8 "started")))).requests
    = [ { Method := utf8 "POST"
          URL := utf8 "https://logs.example.com#a\n/logs"
          Header := [(utf8 "Content-Type", utf8 "application/json")]
          Body :=
            [ ("timeStamp", "2023-11-14T22:13:20Z"),
              ("traceId", "trace-42"),
              ("serviceId", "svc-1"),
              ("applicationId", "app-1"),
              ("logLevel", "INFO"),
              ("log", "started") ] } ] :=
  ⟨((Log_after_Init_posts_entry oldWorld (answering 200) sampleNow
      (utf8 "https://logs.example.com") (utf8 "svc-1") (utf8 "app-1") (utf8 "trace-42")
      (utf8 "INFO") (utf8 "started")
      (by decide) (by decide) (by decide)).2.2.1 (by decide)).trans (by decide),
    ((Log_after_Init_posts_entry oldWorld (answering 200) sampleNow
      (utf8 "https://logs.example.com#a\n") (utf8 "svc-1") (utf8 "app-1") (utf8 "trace-42")
      (utf8 "INFO") (utf8 "started")
      (by decide) (by decide) (by decide)).2.2.1 (by decide)).trans (by decide)⟩

end pushlogs
